import Mathlib

/-!
Verification of the registration/invitation logic of `backend/users.py`
(browsertrix-cloud). The Python module is shallowly embedded: the flow of
`UserManager.create` and `UserManager.on_after_register_custom` becomes pure
Lean functions over an explicit environment of collaborators, and the module
level configuration constants (`PASSWORD_SECRET`, `JWT_TOKEN_LIFETIME`)
become functions of a startup configuration record. Side effects (archive
provisioning calls, invite fulfillment calls, field updates, scheduled
background tasks, log prints) are recorded in an explicit effect trace.
-/

/-- Python exceptions as they matter to this module: `HTTPException`
(raised by this module and caught by its `except HTTPException` handler)
versus any other exception class (e.g. a timeout), which that handler
does not catch. -/
inductive Exc where
  | httpException (status : Nat) (detail : String)
  | otherError (msg : String)
deriving DecidableEq, Repr

/-- The `UserCreate` request model of `users.py`: email, password, optional
display name (blank string when unset), optional invite token, and the
new-archive request fields. -/
structure UserCreate where
  email : String
  password : String
  name : String
  inviteToken : Option String
  newArchive : Bool
  newArchiveName : String
deriving DecidableEq, Repr

/-- The durable `UserDB` account record (the fields this module reads). -/
structure UserDB where
  id : Nat
  email : String
  name : String
  is_active : Bool
  is_verified : Bool
  is_superuser : Bool
deriving DecidableEq, Repr

/-- Python truthiness of an `Optional[str]`: `None` and `""` are falsy. -/
def truthyOpt (o : Option String) : Bool :=
  match o with
  | none => false
  | some s => s ≠ ""

/-- Pending invite record, as needed by registration validation: the scope
must be a new-account invite for a registration-context redemption. -/
structure InviteRec where
  token : String
  newAccount : Bool
deriving DecidableEq, Repr

/-- The pending-invite ledger state. -/
structure InviteLedger where
  pending : List InviteRec
deriving DecidableEq, Repr

/-- Modelled from the spec: `InviteLedger.get_valid_invite` lives in
`invites.py`, which is not part of the sources here. Per the spec it looks
up the token, returns `none` if missing or scope-mismatched against the
registration context, and does not consume: the returned ledger is the
input ledger unchanged. -/
def InviteLedger.get_valid_invite (L : InviteLedger) (token : String) :
    Option InviteRec × InviteLedger :=
  (L.pending.find? (fun r => r.token = token && r.newAccount), L)

/-- One observable side effect of the registration flow, in program order. -/
inductive Effect where
  | printLog (msg : String)
  | accountCreated (uid : Nat)
  | createNewArchiveCall (archive_name storage_name : String) (uid : Nat)
  | handleNewUserInviteCall (token : String) (uid : Nat)
  | updateFields (uid : Nat) (is_verified : Bool)
  | scheduledRequestVerify (uid : Nat)
deriving DecidableEq, Repr

/-- Result of a fallible step together with the effect trace it produced
(effects happen even when an exception then propagates). -/
structure Outcome (α : Type) where
  effects : List Effect
  result : Except Exc α
deriving Repr

/-- The environment of collaborators seen by `UserManager`:
`registration_enabled` (env flag), the invite ledger, the inherited
`fastapi_users` `super().create` (the user store), the two `archive_ops`
collaborator methods, and the behavior of the background
`request_verify` task that registration schedules but never awaits. -/
structure Env where
  registration_enabled : Bool
  ledger : InviteLedger
  super_create : UserCreate → Except Exc UserDB
  create_new_archive_for_user : String → String → UserDB → Except Exc Unit
  handle_new_user_invite : String → UserDB → Except Exc Unit
  request_verify : UserDB → Except Exc Unit

namespace UserManager

/-- `user.name = user.name or user.email` at the top of
`UserManager.create`. -/
def withDefaultName (uc : UserCreate) : UserCreate :=
  { uc with name := if uc.name = "" then uc.email else uc.name }

/-- Step (a) of `on_after_register_custom`: if a new archive was requested,
compute the archive name (`newArchiveName or f"{user.name or user.email}'s
Archive"`) and call `archive_ops.create_new_archive_for_user`. The call is
not wrapped in any handler, so its exception propagates. -/
def archivePhase (env : Env) (user : UserDB) (uc : UserCreate) : Outcome Unit :=
  if uc.newArchive then
    let archive_name :=
      if uc.newArchiveName ≠ "" then uc.newArchiveName
      else (if user.name ≠ "" then user.name else user.email) ++ "\x27s Archive"
    let effs := [Effect.printLog ("Creating new archive for " ++ toString user.id),
                 Effect.createNewArchiveCall archive_name "default" user.id]
    match env.create_new_archive_for_user archive_name "default" user with
    | Except.ok _ => ⟨effs, Except.ok ()⟩
    | Except.error e => ⟨effs, Except.error e⟩
  else ⟨[], Except.ok ()⟩

/-- Steps (b)/(c) of `on_after_register_custom`: with an invite token, call
`archive_ops.handle_new_user_invite` guarded by `except HTTPException`
(only that class is caught and printed), then unconditionally update
`is_verified = True`; without a token, schedule `request_verify` as a
background task (`asyncio.create_task`), never awaited. -/
def invitePhase (env : Env) (user : UserDB) (uc : UserCreate) : Outcome Unit :=
  if truthyOpt uc.inviteToken then
    let token := uc.inviteToken.getD ""
    let callEff := Effect.handleNewUserInviteCall token user.id
    match env.handle_new_user_invite token user with
    | Except.ok _ =>
        ⟨[callEff, Effect.updateFields user.id true], Except.ok ()⟩
    | Except.error (Exc.httpException _ d) =>
        ⟨[callEff, Effect.printLog d, Effect.updateFields user.id true],
         Except.ok ()⟩
    | Except.error e => ⟨[callEff], Except.error e⟩
  else ⟨[Effect.scheduledRequestVerify user.id], Except.ok ()⟩

/-- `UserManager.on_after_register_custom`: log the registration, run the
archive phase, and only if it did not raise, run the invite/verify phase. -/
def on_after_register_custom (env : Env) (user : UserDB) (uc : UserCreate) :
    Outcome Unit :=
  let reg := Effect.printLog ("User " ++ toString user.id ++ " has registered.")
  let a := archivePhase env user uc
  match a.result with
  | Except.error e => ⟨reg :: a.effects, Except.error e⟩
  | Except.ok _ =>
    let b := invitePhase env user uc
    ⟨reg :: (a.effects ++ b.effects), b.result⟩

/-- `UserManager.create`: default the name, reject when registration is
closed and no invite token is present, reject when a supplied token does
not resolve to a valid invite, then create the account via the inherited
`super().create` and run `on_after_register_custom`; the created user is
returned only if post-processing did not raise. -/
def create (env : Env) (uc0 : UserCreate) : Outcome UserDB :=
  let uc := withDefaultName uc0
  if ¬ env.registration_enabled ∧ ¬ truthyOpt uc.inviteToken then
    ⟨[], Except.error (Exc.httpException 400 "Invite Token Required")⟩
  else if truthyOpt uc.inviteToken ∧
      (env.ledger.get_valid_invite (uc.inviteToken.getD "")).1 = none then
    ⟨[], Except.error (Exc.httpException 400 "Invalid Invite Token")⟩
  else
    match env.super_create uc with
    | Except.error e => ⟨[], Except.error e⟩
    | Except.ok created =>
      let post := on_after_register_custom env created uc
      ⟨Effect.accountCreated created.id :: post.effects,
       match post.result with
       | Except.ok _ => Except.ok created
       | Except.error e => Except.error e⟩

end UserManager

/-- Startup configuration: the two environment variables this module reads
and the random hex value `uuid.uuid4().hex` produced once at import. -/
structure Config where
  password_secret_env : Option String
  jwt_lifetime_minutes_env : Option Nat
  random_hex : String
deriving DecidableEq, Repr

/-- `PASSWORD_SECRET = os.environ.get("PASSWORD_SECRET", uuid.uuid4().hex)`. -/
def PASSWORD_SECRET (c : Config) : String :=
  c.password_secret_env.getD c.random_hex

/-- `JWT_TOKEN_LIFETIME = int(os.environ.get("JWT_TOKEN_LIFETIME_MINUTES", 60)) * 60`. -/
def JWT_TOKEN_LIFETIME (c : Config) : Nat :=
  (c.jwt_lifetime_minutes_env.getD 60) * 60

/-- `UserManager.reset_password_token_secret = PASSWORD_SECRET`. -/
def reset_password_token_secret (c : Config) : String := PASSWORD_SECRET c

/-- `UserManager.verification_token_secret = PASSWORD_SECRET`. -/
def verification_token_secret (c : Config) : String := PASSWORD_SECRET c

/-- The `secret=PASSWORD_SECRET` argument of the `JWTAuthentication`
constructed in `init_users_api`. -/
def jwt_authentication_secret (c : Config) : String := PASSWORD_SECRET c

/-- The `lifetime_seconds=JWT_TOKEN_LIFETIME` argument of the
`JWTAuthentication` constructed in `init_users_api`. -/
def jwt_authentication_lifetime (c : Config) : Nat := JWT_TOKEN_LIFETIME c

/-- The body of an invite-issuance request (as needed here). -/
structure InviteRequest where
  email : String
deriving DecidableEq, Repr

/-- The argument tuple with which the `/users/invite` endpoint invokes
`invites.invite_user`. -/
structure InviteUserCall where
  req : InviteRequest
  inviterId : Nat
  archive : Option Nat
  allow_existing : Bool
deriving DecidableEq, Repr

/-- The `current_active_user` dependency
(`fastapi_users.current_user(active=True)`): resolves the bearer token to
an account and requires it to be active; no superuser requirement. -/
def current_active_user (authUser : Option UserDB) : Except Exc UserDB :=
  match authUser with
  | none => Except.error (Exc.httpException 401 "Unauthorized")
  | some u =>
    if u.is_active then Except.ok u
    else Except.error (Exc.httpException 401 "Unauthorized")

/-- The `/users/invite` endpoint of `init_users_api`: resolve the active
user (the superuser check in the source is commented out), call
`user_manager.invites.invite_user(invite, user, user_manager,
archive=None, allow_existing=False)` — recorded as an `InviteUserCall` —
and on success return `{"invited": "new_user"}`. The ledger call itself
lives in `invites.py` (not in the sources) and is abstracted as
`invites_invite_user`. -/
def invite_user_route
    (invites_invite_user : InviteRequest → UserDB → Option Nat → Bool → Except Exc Unit)
    (authUser : Option UserDB) (invite : InviteRequest) :
    Option InviteUserCall × Except Exc (List (String × String)) :=
  match current_active_user authUser with
  | Except.error e => (none, Except.error e)
  | Except.ok user =>
    match invites_invite_user invite user none false with
    | Except.error e => (some ⟨invite, user.id, none, false⟩, Except.error e)
    | Except.ok _ =>
        (some ⟨invite, user.id, none, false⟩,
         Except.ok [("invited", "new_user")])

/-! ### Concrete fixtures used by witnesses and counterexamples -/

/-- The account record the baseline user store returns for the baseline
registration request. -/
def aliceDB : UserDB := ⟨1, "a@example.com", "a@example.com", true, false, false⟩

/-- Baseline environment: open registration, one pending new-account
invite `"tok123"`, a store that creates account id 1 copying email and
name, and collaborators that succeed. -/
def envBase : Env :=
  { registration_enabled := true
  , ledger := ⟨[⟨"tok123", true⟩]⟩
  , super_create := fun uc => Except.ok ⟨1, uc.email, uc.name, true, false, false⟩
  , create_new_archive_for_user := fun _ _ _ => Except.ok ()
  , handle_new_user_invite := fun _ _ => Except.ok ()
  , request_verify := fun _ => Except.ok () }

/-- Baseline registration request: blank name, no invite token, no new
archive. -/
def ucBase : UserCreate := ⟨"a@example.com", "x", "", none, false, ""⟩

/-! ### C3 -/

/-- C3: when open self-registration is disabled and no invite token is
supplied (Python-falsy: absent or blank), registration fails with the
`Invite Token Required` error and produces no effects: no account is
created and no post-processing side effect occurs. -/
theorem create_closed_registration_requires_invite (env : Env) (uc : UserCreate)
    (hreg : env.registration_enabled = false)
    (htok : truthyOpt uc.inviteToken = false) :
    UserManager.create env uc =
      ⟨[], Except.error (Exc.httpException 400 "Invite Token Required")⟩ := by
  have h1 : truthyOpt (UserManager.withDefaultName uc).inviteToken = false := htok
  simp [UserManager.create, hreg, h1]

/-- Witness for C3 at a concrete closed-registration environment and a
request without an invite token. -/
theorem create_closed_registration_requires_invite_witness :
    UserManager.create { envBase with registration_enabled := false } ucBase =
      ⟨[], Except.error (Exc.httpException 400 "Invite Token Required")⟩ :=
  create_closed_registration_requires_invite
    { envBase with registration_enabled := false } ucBase rfl rfl

/-! ### C5 -/

/-- C5: when validation passes but account creation itself fails with
error `e` (e.g. duplicate email), the whole attempt aborts with `e` and
the effect trace is empty: no archive call, no invite fulfillment call,
no verified update, no scheduled verification email. -/
theorem create_store_failure_aborts_without_side_effects
    (env : Env) (uc : UserCreate) (e : Exc)
    (hval : env.registration_enabled = true ∨ truthyOpt uc.inviteToken = true)
    (hinv : truthyOpt uc.inviteToken = true →
      (env.ledger.get_valid_invite (uc.inviteToken.getD "")).1.isSome)
    (hcr : env.super_create (UserManager.withDefaultName uc) = Except.error e) :
    UserManager.create env uc = ⟨[], Except.error e⟩ := by
  have h1 : (UserManager.withDefaultName uc).inviteToken = uc.inviteToken := rfl
  unfold UserManager.create
  rcases hb : truthyOpt uc.inviteToken with _ | _
  · have hr : env.registration_enabled = true := by
      rcases hval with h | h
      · exact h
      · rw [hb] at h; cases h
    simp [h1, hb, hr, hcr]
  · have hs := hinv (by rw [hb])
    rcases Option.isSome_iff_exists.mp hs with ⟨r, hr⟩
    simp [h1, hb, hr, hcr]

/-- Witness for C5: a store that rejects with a duplicate-email error at
the baseline request; the attempt returns that error with no effects. -/
theorem create_store_failure_aborts_without_side_effects_witness :
    UserManager.create
      { envBase with super_create := fun _ =>
          Except.error (Exc.httpException 400 "REGISTER_USER_ALREADY_EXISTS") }
      ucBase =
      ⟨[], Except.error (Exc.httpException 400 "REGISTER_USER_ALREADY_EXISTS")⟩ :=
  create_store_failure_aborts_without_side_effects
    { envBase with super_create := fun _ =>
        Except.error (Exc.httpException 400 "REGISTER_USER_ALREADY_EXISTS") }
    ucBase _ (Or.inl rfl) (fun h => absurd h (by decide)) rfl

/-! ### C7 -/

/-- C7: the reset-password token secret, the verification token secret and
the JWT signing secret of `init_users_api` are all the single shared
`PASSWORD_SECRET`; when no `PASSWORD_SECRET` environment value is
configured, that shared secret is the random hex value generated once at
startup. -/
theorem shared_password_secret (c : Config) :
    reset_password_token_secret c = PASSWORD_SECRET c ∧
    verification_token_secret c = PASSWORD_SECRET c ∧
    jwt_authentication_secret c = PASSWORD_SECRET c ∧
    (c.password_secret_env = none → PASSWORD_SECRET c = c.random_hex) :=
  ⟨rfl, rfl, rfl, fun h => by simp [PASSWORD_SECRET, h]⟩

/-- Witness for C7 at a concrete configuration without an external secret:
all three secrets coincide and equal the startup-generated random value. -/
theorem shared_password_secret_witness :
    reset_password_token_secret ⟨none, none, "c0ffee"⟩ = "c0ffee" ∧
    verification_token_secret ⟨none, none, "c0ffee"⟩ = "c0ffee" ∧
    jwt_authentication_secret ⟨none, none, "c0ffee"⟩ = "c0ffee" := by
  have h := shared_password_secret ⟨none, none, "c0ffee"⟩
  have hs := h.2.2.2 rfl
  exact ⟨h.1.trans hs, h.2.1.trans hs, h.2.2.1.trans hs⟩

/-! ### C8 -/

/-- C8: the bearer-token lifetime is the configured number of minutes
times 60 seconds, and is exactly 3600 seconds when no
`JWT_TOKEN_LIFETIME_MINUTES` value is configured. -/
theorem jwt_lifetime_minutes_times_sixty (c : Config) :
    (∀ m, c.jwt_lifetime_minutes_env = some m → jwt_authentication_lifetime c = m * 60) ∧
    (c.jwt_lifetime_minutes_env = none → jwt_authentication_lifetime c = 3600) := by
  constructor
  · intro m hm
    simp [jwt_authentication_lifetime, JWT_TOKEN_LIFETIME, hm]
  · intro h
    simp [jwt_authentication_lifetime, JWT_TOKEN_LIFETIME, h]

/-- Witness for C8: with no configured lifetime the JWT lifetime is
3600 seconds, and with 90 configured minutes it is 5400 seconds. -/
theorem jwt_lifetime_minutes_times_sixty_witness :
    jwt_authentication_lifetime ⟨none, none, "s"⟩ = 3600 ∧
    jwt_authentication_lifetime ⟨none, some 90, "s"⟩ = 5400 :=
  ⟨(jwt_lifetime_minutes_times_sixty ⟨none, none, "s"⟩).2 rfl,
   (jwt_lifetime_minutes_times_sixty ⟨none, some 90, "s"⟩).1 90 rfl⟩

/-! ### Shared unfolding lemmas for the post-creation path -/

/-- When validation passes and the store creates `u`, `create` records the
account creation and then behaves as `on_after_register_custom`: its
effects and its result (success `u` only when post-processing did not
raise) are those of the post-processing phase. -/
theorem create_unfold_created (env : Env) (uc : UserCreate) (u : UserDB)
    (hval : env.registration_enabled = true ∨ truthyOpt uc.inviteToken = true)
    (hinv : truthyOpt uc.inviteToken = true →
      (env.ledger.get_valid_invite (uc.inviteToken.getD "")).1.isSome)
    (hcr : env.super_create (UserManager.withDefaultName uc) = Except.ok u) :
    UserManager.create env uc =
      ⟨Effect.accountCreated u.id ::
         (UserManager.on_after_register_custom env u (UserManager.withDefaultName uc)).effects,
       match (UserManager.on_after_register_custom env u (UserManager.withDefaultName uc)).result with
       | Except.ok _ => Except.ok u
       | Except.error e => Except.error e⟩ := by
  have h1 : (UserManager.withDefaultName uc).inviteToken = uc.inviteToken := rfl
  unfold UserManager.create
  rcases hb : truthyOpt uc.inviteToken with _ | _
  · have hr : env.registration_enabled = true := by
      rcases hval with h | h
      · exact h
      · rw [hb] at h; cases h
    simp [h1, hb, hr, hcr]
  · have hs := hinv (by rw [hb])
    rcases Option.isSome_iff_exists.mp hs with ⟨r, hr⟩
    simp [h1, hb, hr, hcr]

/-- Every effect of the archive phase is an effect of
`on_after_register_custom`, whether or not the archive call raised. -/
theorem archive_effects_subset_on_after (env : Env) (u : UserDB) (uc : UserCreate)
    (x : Effect) (hx : x ∈ (UserManager.archivePhase env u uc).effects) :
    x ∈ (UserManager.on_after_register_custom env u uc).effects := by
  cases h : (UserManager.archivePhase env u uc).result <;>
    simp [UserManager.on_after_register_custom, h, hx]

/-- With no invite token and a non-raising archive phase,
`on_after_register_custom` succeeds and its final effect is the scheduled
background verification-email task. -/
theorem on_after_no_invite (env : Env) (u : UserDB) (uc : UserCreate)
    (hno : truthyOpt uc.inviteToken = false)
    (ha : (UserManager.archivePhase env u uc).result = Except.ok ()) :
    UserManager.on_after_register_custom env u uc =
      ⟨Effect.printLog ("User " ++ toString u.id ++ " has registered.") ::
         ((UserManager.archivePhase env u uc).effects ++
          [Effect.scheduledRequestVerify u.id]),
       Except.ok ()⟩ := by
  simp [UserManager.on_after_register_custom, UserManager.invitePhase, hno, ha]

/-! ### C4 -/

/-- C4: a supplied, non-blank invite token that does not resolve through
`get_valid_invite` makes registration fail with `Invalid Invite Token`
before any account is created (the effect trace is empty), and the
validation lookup leaves the ledger unchanged (non-consuming). -/
theorem create_invalid_invite_rejected_before_creation
    (env : Env) (uc : UserCreate) (tok : String)
    (htok : uc.inviteToken = some tok) (hne : tok ≠ "")
    (hinv : (env.ledger.get_valid_invite tok).1 = none) :
    UserManager.create env uc =
      ⟨[], Except.error (Exc.httpException 400 "Invalid Invite Token")⟩ ∧
    (env.ledger.get_valid_invite tok).2 = env.ledger := by
  refine ⟨?_, rfl⟩
  have h1 : (UserManager.withDefaultName uc).inviteToken = some tok := htok
  unfold UserManager.create
  simp [h1, truthyOpt, hne, hinv]

/-- Witness for C4: an empty ledger rejects the token `"tok123"` with no
account created and the ledger left unchanged. -/
theorem create_invalid_invite_rejected_before_creation_witness :
    UserManager.create { envBase with ledger := ⟨[]⟩ }
        { ucBase with inviteToken := some "tok123" } =
      ⟨[], Except.error (Exc.httpException 400 "Invalid Invite Token")⟩ ∧
    (InviteLedger.get_valid_invite ⟨[]⟩ "tok123").2 = ⟨[]⟩ :=
  create_invalid_invite_rejected_before_creation
    { envBase with ledger := ⟨[]⟩ } { ucBase with inviteToken := some "tok123" }
    "tok123" rfl (by decide) rfl

/-! ### C6 -/

/-- C6: a blank request name is defaulted to the email during validation,
and when a new archive is requested with a blank `newArchiveName`, the
archive-provisioning collaborator is invoked with the default name
`<name-or-email> + "'s Archive"` — here the created account's name is the
email, so the archive name is the email followed by `'s Archive`. -/
theorem default_archive_name_from_email (env : Env) (uc : UserCreate) (u : UserDB)
    (hname : uc.name = "") (hemail : uc.email ≠ "")
    (harch : uc.newArchive = true) (harchname : uc.newArchiveName = "")
    (hval : env.registration_enabled = true ∨ truthyOpt uc.inviteToken = true)
    (hinv : truthyOpt uc.inviteToken = true →
      (env.ledger.get_valid_invite (uc.inviteToken.getD "")).1.isSome)
    (hcr : env.super_create (UserManager.withDefaultName uc) = Except.ok u)
    (huname : u.name = uc.email) :
    (UserManager.withDefaultName uc).name = uc.email ∧
    Effect.createNewArchiveCall (uc.email ++ "\x27s Archive") "default" u.id
      ∈ (UserManager.create env uc).effects := by
  constructor
  · simp [UserManager.withDefaultName, hname]
  · rw [create_unfold_created env uc u hval hinv hcr]
    have hmemA :
        Effect.createNewArchiveCall (uc.email ++ "\x27s Archive") "default" u.id
          ∈ (UserManager.archivePhase env u (UserManager.withDefaultName uc)).effects := by
      have h2 : (UserManager.withDefaultName uc).newArchive = uc.newArchive := rfl
      have h3 : (UserManager.withDefaultName uc).newArchiveName = uc.newArchiveName := rfl
      simp [UserManager.archivePhase, h2, h3, harch, harchname, huname, hemail]
      cases h4 : env.create_new_archive_for_user (uc.email ++ "\x27s Archive") "default" u <;>
        simp [h4]
    exact List.mem_cons_of_mem _
      (archive_effects_subset_on_after env u (UserManager.withDefaultName uc) _ hmemA)

/-- Witness for C6 at the concrete scenario: email `"a@example.com"`,
blank name, `newArchive` with blank `newArchiveName` under open
registration: the provisioning call is made with the default name. -/
theorem default_archive_name_from_email_witness :
    (UserManager.withDefaultName { ucBase with newArchive := true }).name = "a@example.com" ∧
    Effect.createNewArchiveCall "a@example.com\x27s Archive" "default" 1
      ∈ (UserManager.create envBase { ucBase with newArchive := true }).effects :=
  default_archive_name_from_email envBase { ucBase with newArchive := true }
    aliceDB rfl (by decide) rfl rfl (Or.inl rfl)
    (fun h => absurd h (by decide)) rfl rfl

/-! ### C9 -/

/-- C9: without an invite token, registration schedules the
verification-email request as a background task and returns success; the
entire outcome of `create` (result and effect trace alike) is invariant
under the behavior of that scheduled `request_verify` task, which is never
awaited by the registration path. -/
theorem verification_email_fire_and_forget
    (env : Env) (f : UserDB → Except Exc Unit) (uc : UserCreate) (u : UserDB)
    (hno : truthyOpt uc.inviteToken = false)
    (hreg : env.registration_enabled = true)
    (hcr : env.super_create (UserManager.withDefaultName uc) = Except.ok u)
    (ha : (UserManager.archivePhase env u (UserManager.withDefaultName uc)).result
            = Except.ok ()) :
    UserManager.create { env with request_verify := f } uc = UserManager.create env uc ∧
    (UserManager.create env uc).result = Except.ok u ∧
    Effect.scheduledRequestVerify u.id ∈ (UserManager.create env uc).effects := by
  refine ⟨by cases env; rfl, ?_, ?_⟩
  · rw [create_unfold_created env uc u (Or.inl hreg)
        (fun h => absurd h (by simp [hno])) hcr]
    rw [on_after_no_invite env u (UserManager.withDefaultName uc) hno ha]
  · rw [create_unfold_created env uc u (Or.inl hreg)
        (fun h => absurd h (by simp [hno])) hcr]
    rw [on_after_no_invite env u (UserManager.withDefaultName uc) hno ha]
    simp

/-- Witness for C9: in the baseline environment, replacing the scheduled
verification task's behavior by a failing one leaves the registration
outcome unchanged; the baseline registration succeeds with the account
and the verification task is scheduled. -/
theorem verification_email_fire_and_forget_witness :
    UserManager.create
        { envBase with request_verify := fun _ => Except.error (Exc.otherError "smtp down") }
        ucBase
      = UserManager.create envBase ucBase ∧
    (UserManager.create envBase ucBase).result = Except.ok aliceDB ∧
    Effect.scheduledRequestVerify 1 ∈ (UserManager.create envBase ucBase).effects :=
  verification_email_fire_and_forget envBase
    (fun _ => Except.error (Exc.otherError "smtp down")) ucBase aliceDB
    rfl rfl rfl rfl

/-! ### C10 -/

/-- C10: the `/users/invite` endpoint, for any authenticated active
account (no superuser requirement: `is_superuser` is unconstrained),
invokes the invite ledger call with `archive=None` and
`allow_existing=False`, and on success responds with the body
`{"invited": "new_user"}`. -/
theorem invite_route_any_active_user
    (ivu : InviteRequest → UserDB → Option Nat → Bool → Except Exc Unit)
    (u : UserDB) (invite : InviteRequest)
    (hact : u.is_active = true)
    (hok : ivu invite u none false = Except.ok ()) :
    invite_user_route ivu (some u) invite =
      (some ⟨invite, u.id, none, false⟩, Except.ok [("invited", "new_user")]) := by
  simp [invite_user_route, current_active_user, hact, hok]

/-- Witness for C10: a concrete active non-superuser account issues an
invite; the ledger call is recorded with `archive=none`,
`allow_existing=false`, and the response body is returned. -/
theorem invite_route_any_active_user_witness :
    aliceDB.is_superuser = false ∧
    invite_user_route (fun _ _ _ _ => Except.ok ()) (some aliceDB) ⟨"b@example.com"⟩ =
      (some ⟨⟨"b@example.com"⟩, 1, none, false⟩, Except.ok [("invited", "new_user")]) :=
  ⟨rfl, invite_route_any_active_user (fun _ _ _ _ => Except.ok ())
    aliceDB ⟨"b@example.com"⟩ rfl rfl⟩

/-! ### C1 -/

/-- Environment in which the archive-provisioning collaborator fails with
a non-HTTP exception (a timeout). -/
def envC1 : Env :=
  { envBase with create_new_archive_for_user :=
      fun _ _ _ => Except.error (Exc.otherError "archive provisioning timeout") }

/-- Baseline registration request that asks for a new archive. -/
def ucC1 : UserCreate := { ucBase with newArchive := true }

/-- Counterexample to C1: with open registration, a request with
`newArchive` and an archive-provisioning collaborator that times out, the
registration does NOT return the created account as a success result —
the collaborator's exception propagates and the attempt returns that
error to the caller. -/
theorem archive_failure_fails_registration_counterexample :
    (UserManager.create envC1 ucC1).result =
      Except.error (Exc.otherError "archive provisioning timeout") := rfl

/-- C1 as amended: a failure of `create_new_archive_for_user` during
post-processing is not caught — the error propagates and the registration
attempt fails with it, even though the account has already been created
(the `accountCreated` effect is in the trace). -/
theorem archive_failure_propagates (env : Env) (uc : UserCreate) (u : UserDB) (e : Exc)
    (hval : env.registration_enabled = true ∨ truthyOpt uc.inviteToken = true)
    (hinv : truthyOpt uc.inviteToken = true →
      (env.ledger.get_valid_invite (uc.inviteToken.getD "")).1.isSome)
    (hcr : env.super_create (UserManager.withDefaultName uc) = Except.ok u)
    (harch : uc.newArchive = true)
    (hfail : ∀ nm st, env.create_new_archive_for_user nm st u = Except.error e) :
    (UserManager.create env uc).result = Except.error e ∧
    Effect.accountCreated u.id ∈ (UserManager.create env uc).effects := by
  rw [create_unfold_created env uc u hval hinv hcr]
  have h2 : (UserManager.withDefaultName uc).newArchive = uc.newArchive := rfl
  have ha : (UserManager.archivePhase env u (UserManager.withDefaultName uc)).result
      = Except.error e := by
    simp [UserManager.archivePhase, h2, harch, hfail]
  have hon : (UserManager.on_after_register_custom env u
      (UserManager.withDefaultName uc)).result = Except.error e := by
    simp [UserManager.on_after_register_custom, ha]
  constructor
  · simp [hon]
  · simp

/-- Witness for the amended C1 at the concrete timeout environment. -/
theorem archive_failure_propagates_witness :
    (UserManager.create envC1 ucC1).result =
      Except.error (Exc.otherError "archive provisioning timeout") ∧
    Effect.accountCreated 1 ∈ (UserManager.create envC1 ucC1).effects :=
  archive_failure_propagates envC1 ucC1 aliceDB _
    (Or.inl rfl) (fun h => absurd h (by decide)) rfl rfl (fun _ _ => rfl)

/-! ### C2 -/

/-- Environment in which invite fulfillment fails with a non-HTTP
exception (a timeout). -/
def envC2 : Env :=
  { envBase with handle_new_user_invite :=
      fun _ _ => Except.error (Exc.otherError "invite fulfillment timeout") }

/-- Registration request redeeming the pending invite `"tok123"`. -/
def ucC2 : UserCreate := { ucBase with inviteToken := some "tok123" }

/-- Counterexample to C2: a non-`HTTPException` failure (a timeout) of
`handle_new_user_invite` is NOT swallowed — it propagates, the attempt
returns that error, and the `verified = true` update never happens. -/
theorem invite_failure_not_always_swallowed_counterexample :
    (UserManager.create envC2 ucC2).result =
      Except.error (Exc.otherError "invite fulfillment timeout") ∧
    Effect.updateFields 1 true ∉ (UserManager.create envC2 ucC2).effects := by
  exact ⟨rfl, by decide⟩

/-- Helper for the amended C2: with an invite token, when the invite
fulfillment call succeeds or fails with an `HTTPException` (the only class
the `except` clause catches), post-processing succeeds and the
`verified = true` update is performed. -/
theorem on_after_invite_http_or_ok (env : Env) (u : UserDB) (uc : UserCreate)
    (tok : String) (htok : uc.inviteToken = some tok) (hne : tok ≠ "")
    (ha : (UserManager.archivePhase env u uc).result = Except.ok ())
    (hh : env.handle_new_user_invite tok u = Except.ok () ∨
          ∃ s d, env.handle_new_user_invite tok u = Except.error (Exc.httpException s d)) :
    (UserManager.on_after_register_custom env u uc).result = Except.ok () ∧
    Effect.updateFields u.id true ∈
      (UserManager.on_after_register_custom env u uc).effects := by
  have ht : truthyOpt uc.inviteToken = true := by simp [truthyOpt, htok, hne]
  rcases hh with hok | ⟨s, d, herr⟩
  · simp [UserManager.on_after_register_custom, UserManager.invitePhase,
      ha, ht, htok, hok, truthyOpt, hne]
  · simp [UserManager.on_after_register_custom, UserManager.invitePhase,
      ha, ht, htok, herr, truthyOpt, hne]

/-- C2 as amended: for a registration with an invite token, failures of
`handle_new_user_invite` of class `HTTPException` are swallowed (only that
class is caught), and then — as after a successful call — the account is
updated to `verified = true` and registration returns the created account;
a failure of any other exception class instead propagates (see the
counterexample). -/
theorem invite_http_failure_swallowed_then_verified
    (env : Env) (uc : UserCreate) (u : UserDB) (tok : String)
    (htok : uc.inviteToken = some tok) (hne : tok ≠ "")
    (hinv : (env.ledger.get_valid_invite tok).1.isSome)
    (hcr : env.super_create (UserManager.withDefaultName uc) = Except.ok u)
    (ha : (UserManager.archivePhase env u (UserManager.withDefaultName uc)).result
            = Except.ok ())
    (hh : env.handle_new_user_invite tok u = Except.ok () ∨
          ∃ s d, env.handle_new_user_invite tok u = Except.error (Exc.httpException s d)) :
    (UserManager.create env uc).result = Except.ok u ∧
    Effect.updateFields u.id true ∈ (UserManager.create env uc).effects := by
  have htok1 : (UserManager.withDefaultName uc).inviteToken = some tok := htok
  have ht : truthyOpt uc.inviteToken = true := by simp [truthyOpt, htok, hne]
  have hinv1 : truthyOpt uc.inviteToken = true →
      (env.ledger.get_valid_invite (uc.inviteToken.getD "")).1.isSome := by
    intro _
    rw [htok]
    exact hinv
  rw [create_unfold_created env uc u (Or.inr ht) hinv1 hcr]
  have hon := on_after_invite_http_or_ok env u (UserManager.withDefaultName uc)
    tok htok1 hne ha hh
  constructor
  · simp [hon.1]
  · simp [hon.2]

/-- Witness for the amended C2: a concrete `HTTPException` failure of
invite fulfillment is swallowed; registration succeeds with the account
and the `verified = true` update is in the trace. -/
theorem invite_http_failure_swallowed_then_verified_witness :
    (UserManager.create
        { envBase with handle_new_user_invite :=
            fun _ _ => Except.error (Exc.httpException 400 "Invalid Invite") }
        ucC2).result = Except.ok aliceDB ∧
    Effect.updateFields 1 true ∈
      (UserManager.create
        { envBase with handle_new_user_invite :=
            fun _ _ => Except.error (Exc.httpException 400 "Invalid Invite") }
        ucC2).effects :=
  invite_http_failure_swallowed_then_verified
    { envBase with handle_new_user_invite :=
        fun _ _ => Except.error (Exc.httpException 400 "Invalid Invite") }
    ucC2 aliceDB "tok123" rfl (by decide) rfl rfl rfl
    (Or.inr ⟨400, "Invalid Invite", rfl⟩)
